import Mathlib

set_option autoImplicit false
set_option maxHeartbeats 1000000

/-!
Shallow embedding of the serverless-doppler-secrets plugin (src/index.js).

The repository file holds two historical variants of the plugin class plus the
README.  The older variant (called V1 below) has a `getDopplerSecrets` method
taking positional arguments and a `getLocalDopplerSettings` that throws when
the local settings file is absent.  The newer variant (V2) takes a request
object with a `localFallback` flag and treats an absent settings file as an
empty result.  Both variants are embedded; names follow the source.

Machine-level/JS conventions used throughout:
- a JS value that may be `undefined`/`null` is an `Option`;
- JS truthiness of a string value: `undefined`, `null` and `""` are falsy;
- `a ?? b` (nullish coalescing) keeps `a` whenever it is not nullish, so the
  empty string passes through;
- external collaborators (remote Doppler API, keychain, filesystem, yaml,
  Buffer hex decoding) are supplied as environment records of pure functions.
-/

/-- JS truthiness of an optional string: nullish and the empty string are falsy. -/
def truthyOpt : Option String → Bool
  | some s => !s.isEmpty
  | none => false

/-- Collapse a JS-falsy optional string to `none`; a truthy one keeps its value.
Models the pattern `if (!x) ... else use x`. -/
def jsTruthy? : Option String → Option String
  | some s => if s.isEmpty then none else some s
  | none => none

/-- JS nullish coalescing `a ?? b` on optional values. -/
def jsNullish {α : Type} : Option α → Option α → Option α
  | some v, _ => some v
  | none, b => b

/-- JS `String.prototype.replace` with a plain search string and empty
replacement, on character lists: scan left to right and drop the first
occurrence of `pat`. -/
def replaceFirstChars (pat : List Char) : List Char → List Char
  | [] => []
  | c :: rest =>
    if pat.isPrefixOf (c :: rest) then (c :: rest).drop pat.length
    else c :: replaceFirstChars pat rest

/-- JS `s.replace(pat, "")`: removes the first occurrence of `pat` from `s`. -/
def replaceFirst (s pat : String) : String :=
  String.mk (replaceFirstChars pat.data s.data)

/-- A record of the `scoped` mapping in `~/.doppler/.doppler.yaml`.
Field `token` is the yaml key `token`, `enclaveProject` is the yaml key
`enclave.project`, `enclaveConfig` is the yaml key `enclave.config`. -/
structure ScopeRecord where
  token : Option String
  enclaveProject : Option String
  enclaveConfig : Option String
deriving DecidableEq, Repr

/-- Render a normalized absolute path from its components: `[] = /`,
`[a, b] = /a/b`.  Directory walking in the source happens on such strings via
`resolve(path, "..")`; the embedding carries the component list and renders the
string only for lookups in the scope tree. -/
def pathOf (comps : List String) : String :=
  ("/") ++ String.intercalate ("/") comps

/-- The inner helper `getScopedValue(scopes, path, selector)` of
`getLocalDopplerSettings` (identical in both variants): starting at `path`,
look up the record at the current path, apply the selector, return the value if
truthy; at the filesystem root return null; otherwise move to the parent path
(`resolve(path, "..")`) and repeat.  The walk recurses structurally on the
reversed component list: popping the head of the reversed list is exactly the
move to the parent directory. -/
def getScopedValueRev (scopes : String → Option ScopeRecord)
    (selector : ScopeRecord → Option String) : List String → Option String
  | [] =>
    let value := (scopes (pathOf [])).bind selector
    if truthyOpt value then value else none
  | r :: rs =>
    let value := (scopes (pathOf ((r :: rs).reverse))).bind selector
    if truthyOpt value then value else getScopedValueRev scopes selector rs

def getScopedValue (scopes : String → Option ScopeRecord) (path : List String)
    (selector : ScopeRecord → Option String) : Option String :=
  getScopedValueRev scopes selector path.reverse

/-- The chain of paths visited by the upward walk: the start path, then each
parent in turn, ending with the filesystem root `[]`. -/
def ancestorChain (comps : List String) : List (List String) :=
  match comps with
  | [] => [[]]
  | h :: t => comps :: ancestorChain (h :: t).dropLast
termination_by comps.length
decreasing_by
  simp_all [List.length_dropLast]

/-- Errors surfaced by the plugin: either an explicit `throw new Error(msg)` from
the source, or a JS runtime `TypeError` raised by an operation on a nullish value. -/
inductive DError where
  | thrown : String → DError
  | typeError : String → DError
deriving DecidableEq, Repr

/-- The record produced by `getLocalDopplerSettings`: a decoded CLI access token
and the locally configured project/config ids (all possibly undefined). -/
structure LocalSettings where
  accessToken : Option String
  projectId : Option String
  configId : Option String
deriving DecidableEq, Repr

/-- The local machine as seen by `getLocalDopplerSettings`:
- `homedir`: `os.homedir()`;
- `fileExists`: `fs.existsSync` at `join(homedir, ".doppler", ".doppler.yaml")`;
- `scopedMap`: the `scoped` mapping of the parsed yaml document (`scoped` is a Lean keyword), `none` when the
  document lacks that key (accessing a property of it then raises a TypeError);
- `serviceDir`: components of the absolute `serverless.serviceDir`;
- `keychain`: `getPassword("doppler-cli", account)`, `none` when no entry exists;
- `hexToUtf8`: `Buffer.from(s, "hex").toString("utf8")`, an external primitive. -/
structure LocalEnv where
  homedir : String
  fileExists : Bool
  scopedMap : Option (String → Option ScopeRecord)
  serviceDir : List String
  keychain : String → Option String
  hexToUtf8 : String → String

/-- V1 `getLocalDopplerSettings` (older variant): throws when the settings file
is absent; reads the three scoped values; always queries the keychain.  A null
scoped mapping raises a TypeError at the first tree lookup; keytar rejects a
null account argument; a missing keychain entry makes the subsequent
`encodedToken.replace` call throw a TypeError on null. -/
def getLocalDopplerSettingsV1 (env : LocalEnv) : Except DError LocalSettings :=
  if !env.fileExists then
    .error (DError.thrown (("no local doppler config. (no file at \"") ++ env.homedir
      ++ ("/.doppler/.doppler.yaml\")")))
  else
    match env.scopedMap with
    | none => .error (DError.typeError ("Cannot read properties of undefined"))
    | some scopes =>
      let keychainAccount := getScopedValue scopes env.serviceDir (fun c => c.token)
      let projectId := getScopedValue scopes env.serviceDir (fun c => c.enclaveProject)
      let configId := getScopedValue scopes env.serviceDir (fun c => c.enclaveConfig)
      match keychainAccount with
      | none => .error (DError.thrown ("Account is required."))
      | some acct =>
        match env.keychain acct with
        | none => .error (DError.typeError ("Cannot read properties of null"))
        | some encodedToken =>
          let accessToken := env.hexToUtf8 (replaceFirst encodedToken ("go-keyring-encoded:"))
          .ok { accessToken := some accessToken, projectId := projectId, configId := configId }

/-- V2 `getLocalDopplerSettings` (newer variant): an absent settings file yields
the empty object `{}` (all fields undefined); the keychain is only queried when
a scoped account was found, and a missing keychain entry is tolerated through
the optional-chaining `encodedToken?.replace`. -/
def getLocalDopplerSettingsV2 (env : LocalEnv) : Except DError LocalSettings :=
  if !env.fileExists then
    .ok { accessToken := none, projectId := none, configId := none }
  else
    match env.scopedMap with
    | none => .error (DError.typeError ("Cannot read properties of undefined"))
    | some scopes =>
      let keychainAccount := getScopedValue scopes env.serviceDir (fun c => c.token)
      let projectId := getScopedValue scopes env.serviceDir (fun c => c.enclaveProject)
      let configId := getScopedValue scopes env.serviceDir (fun c => c.enclaveConfig)
      let accessToken :=
        match jsTruthy? keychainAccount with
        | some acct =>
          match env.keychain acct with
          | some encodedToken =>
            let stripped := replaceFirst encodedToken ("go-keyring-encoded:")
            if stripped.isEmpty then none else some (env.hexToUtf8 stripped)
          | none => none
        | none => none
      .ok { accessToken := accessToken, projectId := jsTruthy? projectId,
            configId := jsTruthy? configId }

/-- One project of the `projects.list` response. -/
structure Project where
  slug : String
deriving DecidableEq, Repr

/-- One config of the `configs.list` response. -/
structure ConfigItem where
  name : String
deriving DecidableEq, Repr

/-- One secret of the `secrets.list` response. -/
structure SecretEntry where
  computed : String
deriving DecidableEq, Repr

/-- The `auth.me()` response; the source checks its `type_` field. -/
structure MeResponse where
  type_ : Option String

/-- The `projects.list()` response; the `projects` array may be absent. -/
structure ProjectsResponse where
  projects : Option (List Project)

/-- The `configs.list(projectId)` response; the `configs` array may be absent. -/
structure ConfigsResponse where
  configs : Option (List ConfigItem)

/-- The `secrets.list(projectId, configId)` response: a name-keyed object of
secret entries, embedded as an entry list. -/
structure SecretsResponse where
  secrets : List (String × SecretEntry)

/-- The remote Doppler service as reachable through one `DopplerSDK` instance
(the SDK is constructed from the resolved access token, see `RemoteEnv`). -/
structure RemoteAPI where
  me : MeResponse
  projectsList : ProjectsResponse
  configsList : String → ConfigsResponse
  secretsList : String → String → SecretsResponse

/-- The remote service as a whole: responses depend on the access token the
SDK was constructed with. -/
def RemoteEnv : Type := String → RemoteAPI

/-- `getAvailableProjectIds`: list the project slugs, empty when the response
carries no `projects` array. -/
def getAvailableProjectIds (api : RemoteAPI) : List String :=
  match api.projectsList.projects with
  | some l => l.map (fun p => p.slug)
  | none => []

/-- `getAvailableConfigIds`: list the config names of a project, empty when the
response carries no `configs` array. -/
def getAvailableConfigIds (api : RemoteAPI) (projectId : String) : List String :=
  match (api.configsList projectId).configs with
  | some l => l.map (fun c => c.name)
  | none => []

instance {e a : Type} [DecidableEq e] [DecidableEq a] : DecidableEq (Except e a)
  | .ok x, .ok y => decidable_of_iff (x = y) (by simp)
  | .ok _, .error _ => isFalse (by simp)
  | .error _, .ok _ => isFalse (by simp)
  | .error x, .error y => decidable_of_iff (x = y) (by simp)

/-- The flattened secret map: name to resolved string value. -/
def SecretMap : Type := List (String × String)

instance : DecidableEq SecretMap := by
  unfold SecretMap
  infer_instance

/-- Flattening of the secrets response:
`Object.entries(secrets.secrets).map(([key, value]) => [key, value.computed])`. -/
def flattenSecrets (entries : List (String × SecretEntry)) : SecretMap :=
  entries.map (fun kv => (kv.1, kv.2.computed))

/-- JS object property access on the flattened map (`Object.fromEntries` keeps
the last entry for a duplicated key). -/
def jsGet (m : SecretMap) (key : String) : Option String :=
  match m.reverse.find? (fun kv => kv.1 = key) with
  | some kv => some kv.2
  | none => none

/-- The lookup step of `resolveDopplerSecret` after the memoized promise has
settled: `if (!secrets[address]) throw ...; return { value: secrets[address] }`. -/
def lookupSecret (secrets : SecretMap) (address : String) : Except DError String :=
  match jsTruthy? (jsGet secrets address) with
  | some v => .ok v
  | none => .error (DError.thrown (("could not resolve doppler secret \"") ++ address ++ ("\"")))

/-- Observable side effects of one resolution attempt, in program order:
reading the local settings (file and keychain), and each remote SDK call. -/
inductive Eff where
  | readLocal
  | authMe
  | listProjects
  | listConfigs : String → Eff
  | listSecrets : String → String → Eff
deriving DecidableEq, Repr

/-- Number of `secrets.list` calls in a trace. -/
def countListSecrets (tr : List Eff) : Nat :=
  tr.countP (fun e =>
    match e with
    | Eff.listSecrets _ _ => true
    | _ => false)

/-- A JS value as it flows through the V2 `localFallback` merge, which mixes a
CLI-supplied string with declared booleans.  `vundef` covers `undefined`/`null`. -/
inductive JVal where
  | vstr : String → JVal
  | vbool : Bool → JVal
  | vundef : JVal
deriving DecidableEq, Repr

/-- JS truthiness of such a value. -/
def jtruthy : JVal → Bool
  | JVal.vstr s => !s.isEmpty
  | JVal.vbool b => b
  | JVal.vundef => false

/-- JS nullish coalescing on such values. -/
def jnullish : JVal → JVal → JVal
  | JVal.vundef, b => b
  | a, _ => a

/-- Lift an optional string (resp. bool) into a JS value. -/
def ofOptStr : Option String → JVal
  | some s => JVal.vstr s
  | none => JVal.vundef

def ofOptBool : Option Bool → JVal
  | some b => JVal.vbool b
  | none => JVal.vundef

/-- The request object handed to the V2 `getDopplerSecrets`. -/
structure RequestV2 where
  accessToken : Option String
  projectId : Option String
  configId : Option String
  localFallback : JVal
deriving DecidableEq, Repr

/-- Common tail of the V2 `getDopplerSecrets` (source lines after the service
token branch): `projectId ??= localFallback ? localSettings.projectId : undefined`,
failing when the result is falsy, then the same for `configId`, then the single
`secrets.list` call.  `pre` is the effect trace accumulated so far. -/
def secretsTailV2 (localFallback : JVal) (localSettings : LocalSettings) (api : RemoteAPI)
    (projectId configId : Option String) (pre : List Eff) : Except DError SecretMap × List Eff :=
  match jsTruthy? (jsNullish projectId
      (if jtruthy localFallback then localSettings.projectId else none)) with
  | none => (.error (DError.thrown ("missing doppler project")), pre)
  | some pid =>
    match jsTruthy? (jsNullish configId
        (if jtruthy localFallback then localSettings.configId else none)) with
    | none => (.error (DError.thrown ("missing doppler config")), pre)
    | some cid =>
      (.ok (flattenSecrets (api.secretsList pid cid).secrets), pre ++ [Eff.listSecrets pid cid])

/-- V2 `getDopplerSecrets({accessToken, projectId, configId, localFallback})`:
always reads the local settings first; applies the local fallback to a missing
token; queries `auth.me()`; on a service token adopts the unique available
project and config (failing on zero or several, and overwriting any explicit
request values); then runs the common tail.  Returns the outcome together with
the trace of external effects. -/
def getDopplerSecretsV2 (req : RequestV2) (lenv : LocalEnv) (renv : RemoteEnv) :
    Except DError SecretMap × List Eff :=
  match getLocalDopplerSettingsV2 lenv with
  | .error e => (.error e, [Eff.readLocal])
  | .ok localSettings =>
    match jsTruthy? (jsNullish req.accessToken
        (if jtruthy req.localFallback then localSettings.accessToken else none)) with
    | none => (.error (DError.thrown ("missing doppler access token")), [Eff.readLocal])
    | some accessToken =>
      if (renv accessToken).me.type_ = some ("service_token") then
        match getAvailableProjectIds (renv accessToken) with
        | [] =>
          (.error (DError.thrown ("cannot find doppler project associated with service token")),
            [Eff.readLocal, Eff.authMe, Eff.listProjects])
        | pid :: otherPids =>
          if pid.isEmpty then
            (.error (DError.thrown ("cannot find doppler project associated with service token")),
              [Eff.readLocal, Eff.authMe, Eff.listProjects])
          else if !otherPids.isEmpty then
            (.error (DError.thrown ("multiple doppler projects associated with service token")),
              [Eff.readLocal, Eff.authMe, Eff.listProjects])
          else
            match getAvailableConfigIds (renv accessToken) pid with
            | [] =>
              (.error (DError.thrown ("cannot find doppler config associated with service token")),
                [Eff.readLocal, Eff.authMe, Eff.listProjects, Eff.listConfigs pid])
            | cid :: otherCids =>
              if cid.isEmpty then
                (.error (DError.thrown ("cannot find doppler config associated with service token")),
                  [Eff.readLocal, Eff.authMe, Eff.listProjects, Eff.listConfigs pid])
              else if !otherCids.isEmpty then
                (.error (DError.thrown ("multiple doppler configs associated with service token")),
                  [Eff.readLocal, Eff.authMe, Eff.listProjects, Eff.listConfigs pid])
              else
                secretsTailV2 req.localFallback localSettings (renv accessToken) (some pid) (some cid)
                  [Eff.readLocal, Eff.authMe, Eff.listProjects, Eff.listConfigs pid]
      else
        secretsTailV2 req.localFallback localSettings (renv accessToken) req.projectId req.configId
          [Eff.readLocal, Eff.authMe]

/-- Shared tail of the V1 `getDopplerSecrets`: `if (!projectId) throw`,
`if (!configId) throw`, then the `secrets.list` call. -/
def v1Finish (api : RemoteAPI) (projectId configId : Option String) : Except DError SecretMap :=
  match jsTruthy? projectId with
  | none => .error (DError.thrown ("missing doppler project"))
  | some pid =>
    match jsTruthy? configId with
    | none => .error (DError.thrown ("missing doppler config"))
    | some cid => .ok (flattenSecrets (api.secretsList pid cid).secrets)

/-- Config mismatch check of the V1 service token branch (runs after the project
check passed or was skipped): `if (configId && configId !== cid) throw`. -/
def v1ConfigCheck (api : RemoteAPI) (configId : Option String) (pid cid : String) :
    Except DError SecretMap :=
  match jsTruthy? configId with
  | some d =>
    if d ≠ cid then
      .error (DError.thrown ("service token corresponds to a different doppler config than specified"))
    else v1Finish api (some pid) (some cid)
  | none => v1Finish api (some pid) (some cid)

/-- Body of the V1 `getDopplerSecrets` once a truthy access token is in hand:
`auth.me()`, the service token branch (unique project and config, with the
explicit mismatch checks of the older variant, then `projectId = pid;
configId = cid`), and the shared tail. -/
def getDopplerSecretsV1Core (accessToken : String) (projectId configId : Option String)
    (renv : RemoteEnv) : Except DError SecretMap :=
  if (renv accessToken).me.type_ = some ("service_token") then
    match getAvailableProjectIds (renv accessToken) with
    | [] => .error (DError.thrown ("cannot find doppler project associated with service token"))
    | pid :: otherPids =>
      if pid.isEmpty then
        .error (DError.thrown ("cannot find doppler project associated with service token"))
      else if !otherPids.isEmpty then
        .error (DError.thrown ("multiple doppler projects associated with service token"))
      else
        match getAvailableConfigIds (renv accessToken) pid with
        | [] => .error (DError.thrown ("cannot find doppler config associated with service token"))
        | cid :: otherCids =>
          if cid.isEmpty then
            .error (DError.thrown ("cannot find doppler config associated with service token"))
          else if !otherCids.isEmpty then
            .error (DError.thrown ("multiple doppler configs associated with service token"))
          else
            match jsTruthy? projectId with
            | some q =>
              if q ≠ pid then
                .error (DError.thrown
                  ("service token corresponds to a different doppler project than specified"))
              else v1ConfigCheck (renv accessToken) configId pid cid
            | none => v1ConfigCheck (renv accessToken) configId pid cid
  else
    v1Finish (renv accessToken) projectId configId

/-- V1 `getDopplerSecrets(accessToken, projectId, configId)`: only when the
token is falsy are the local settings consulted (and a failure of the local
loader, including its throw on an absent settings file, propagates); a falsy
local token is a fatal error. -/
def getDopplerSecretsV1 (accessToken projectId configId : Option String)
    (lenv : LocalEnv) (renv : RemoteEnv) : Except DError SecretMap :=
  match jsTruthy? accessToken with
  | some tok => getDopplerSecretsV1Core tok projectId configId renv
  | none =>
    match getLocalDopplerSettingsV1 lenv with
    | .error e => .error e
    | .ok localSettings =>
      match jsTruthy? localSettings.accessToken with
      | none =>
        .error (DError.thrown
          ("no doppler access token provided and local doppler cli not configured for project"))
      | some tok => getDopplerSecretsV1Core tok projectId configId renv

/-- JS `p.startsWith(pre)` on character lists. -/
def jsStartsWith (p pre : String) : Bool :=
  pre.data.isPrefixOf p.data

/-- Split a character list on every occurrence of a separator character. -/
def splitChars (sep : Char) : List Char → List (List Char)
  | [] => [[]]
  | c :: rest =>
    match splitChars sep rest with
    | [] => [[c]]
    | g :: gs => if c = sep then [] :: g :: gs else (c :: g) :: gs

/-- JS `p.split("=")`. -/
def jsSplitEq (p : String) : List String :=
  (splitChars ('=') p.data).map String.mk

/-- CLI parameter parsing of `resolveDopplerSecret`:
`options.param?.filter(p => p?.startsWith("doppler-"))?.map(p => p.split("="))`
`?.map(s => [s[0], s[1]])`.  An entry without `=` carries an undefined value. -/
def parseCliParams (param : List String) : List (String × Option String) :=
  ((param.filter (fun p => jsStartsWith p ("doppler-"))).map (fun p => jsSplitEq p)).map
    (fun s => (s.headD (""), s[1]?))

/-- Property access on the object built by `Object.fromEntries` (a later entry
for the same key overwrites an earlier one). -/
def cliLookup (entries : List (String × Option String)) (key : String) : Option String :=
  match entries.reverse.find? (fun e => e.1 = key) with
  | some e => e.2
  | none => none

/-- The per-stage block of the declared `doppler` configuration. -/
structure StageBlock where
  token : Option String
  project : Option String
  config : Option String
  localFallback : Option Bool

/-- The top-level `doppler` block of the service configuration. -/
structure DopplerBlock where
  token : Option String
  project : Option String
  config : Option String
  localFallback : Option Bool
  stages : Option (String → Option StageBlock)

/-- `configurationInput.doppler?.stages?.[stage]?.<field>`. -/
def stageField {α : Type} (cfg : Option DopplerBlock) (stage : String)
    (f : StageBlock → Option α) : Option α :=
  ((cfg.bind (fun d => d.stages)).bind (fun st => st stage)).bind f

/-- `configurationInput.doppler?.<field>`. -/
def globalField {α : Type} (cfg : Option DopplerBlock) (f : DopplerBlock → Option α) : Option α :=
  cfg.bind f

/-- The source merge in the V2 `resolveDopplerSecret` (CLI param, then the
stage block, then the top level, chained with `??`).  The `localFallback` field
mixes the raw CLI string with the declared booleans; the marked TODO in the
source (`convert string to boolean`) is not implemented, so the CLI string is
kept as-is. -/
def mergedRequest (param : List String) (cfg : Option DopplerBlock) (stage : String) : RequestV2 :=
  let cliParams := parseCliParams param
  { accessToken := jsNullish (cliLookup cliParams ("doppler-token"))
      (jsNullish (stageField cfg stage (fun s => s.token)) (globalField cfg (fun d => d.token))),
    projectId := jsNullish (cliLookup cliParams ("doppler-project"))
      (jsNullish (stageField cfg stage (fun s => s.project)) (globalField cfg (fun d => d.project))),
    configId := jsNullish (cliLookup cliParams ("doppler-config"))
      (jsNullish (stageField cfg stage (fun s => s.config)) (globalField cfg (fun d => d.config))),
    localFallback := jnullish (ofOptStr (cliLookup cliParams ("doppler-local-fallback")))
      (jnullish (ofOptBool (stageField cfg stage (fun s => s.localFallback)))
        (ofOptBool (globalField cfg (fun d => d.localFallback)))) }

/-- Awaiting the memoized promise and looking up one address: a rejected fetch
rethrows its error to every caller; a fulfilled one runs the map lookup. -/
def awaitAndLookup (fetched : Except DError SecretMap) (address : String) : Except DError String :=
  match fetched with
  | .error e => .error e
  | .ok m => lookupSecret m address

/-- The mutable plugin field `this.getDopplerSecretsPromise` (initialized to
null in the constructor).  A settled promise is embedded as its outcome
together with the effect trace its execution produced. -/
structure PluginState where
  getDopplerSecretsPromise : Option (Except DError SecretMap × List Eff)

/-- One call to the V2 `resolveDopplerSecret({address, options})`.
The test of `this.getDopplerSecretsPromise` and the assignment to it are
synchronous (no `await` between them in the source), and the host runtime is a
single-threaded event loop, so concurrent calls interleave only at `await`
points: every schedule of concurrent lookups is some sequential order of these
atomic steps.  Returns the new state, the external effects this step caused,
and the outcome delivered for `address`. -/
def resolveDopplerSecretStep (param : List String) (cfg : Option DopplerBlock) (stage : String)
    (lenv : LocalEnv) (renv : RemoteEnv) (st : PluginState) (address : String) :
    PluginState × List Eff × Except DError String :=
  match st.getDopplerSecretsPromise with
  | none =>
    let fetched := getDopplerSecretsV2 (mergedRequest param cfg stage) lenv renv
    ({ getDopplerSecretsPromise := some fetched }, fetched.2, awaitAndLookup fetched.1 address)
  | some fetched => (st, [], awaitAndLookup fetched.1 address)

/-- A deployment run: the lookups of one invocation processed in order,
accumulating the external effect trace and the per-lookup outcomes. -/
def runLookups (param : List String) (cfg : Option DopplerBlock) (stage : String)
    (lenv : LocalEnv) (renv : RemoteEnv) :
    List String → PluginState → PluginState × List Eff × List (Except DError String)
  | [], st => (st, [], [])
  | a :: as, st =>
    let step := resolveDopplerSecretStep param cfg stage lenv renv st a
    let rest := runLookups param cfg stage lenv renv as step.1
    (rest.1, step.2.1 ++ rest.2.1, step.2.2 :: rest.2.2)

/-! Concrete environments used as witnesses and counterexamples. -/

/-- A machine without a local Doppler settings file. -/
def exLenvNoFile : LocalEnv :=
  LocalEnv.mk ("/home/u") false none [("srv")] (fun _ => none) (fun s => s)

/-- A machine whose settings file exists but lacks the `scoped` mapping. -/
def exLenvScopedMissing : LocalEnv :=
  LocalEnv.mk ("/home/u") true none [("srv")] (fun _ => none) (fun s => s)

/-- A scope tree with one record at the filesystem root: account `alice`,
project `p`, config `c`. -/
def exTreeAlice : String → Option ScopeRecord := fun p =>
  if p = ("/") then some (ScopeRecord.mk (some ("alice")) (some ("p")) (some ("c"))) else none

/-- A machine with local CLI settings and a keychain entry for `alice` (the hex
decoding primitive is taken to be the identity on this machine). -/
def exLenvAlice : LocalEnv :=
  LocalEnv.mk ("/home/u") true (some exTreeAlice) [("srv")]
    (fun a => if a = ("alice") then some (("go-keyring-encoded:") ++ ("ab")) else none)
    (fun s => s)

/-- Same machine but with an empty credential store. -/
def exLenvKeychainMiss : LocalEnv :=
  LocalEnv.mk ("/home/u") true (some exTreeAlice) [("srv")] (fun _ => none) (fun s => s)

/-- A scope tree storing project and config but no account identifier. -/
def exTreeNoToken : String → Option ScopeRecord := fun p =>
  if p = ("/") then some (ScopeRecord.mk none (some ("p")) (some ("c"))) else none

/-- A machine whose local settings carry no stored account identifier. -/
def exLenvNoAccount : LocalEnv :=
  LocalEnv.mk ("/home/u") true (some exTreeNoToken) [("srv")] (fun _ => none) (fun s => s)

/-- A declared `doppler` block carrying only a service wide token. -/
def exDopplerBlock : DopplerBlock :=
  DopplerBlock.mk (some ("tok")) none none none none

/-- A remote service seeing a service token bound to the single project `p1`
with the single config `c1`, whose secret list holds `A = x`. -/
def exApiServiceOne : RemoteAPI :=
  RemoteAPI.mk (MeResponse.mk (some ("service_token")))
    (ProjectsResponse.mk (some [Project.mk ("p1")]))
    (fun _ => ConfigsResponse.mk (some [ConfigItem.mk ("c1")]))
    (fun _ _ => SecretsResponse.mk [(("A"), SecretEntry.mk ("x"))])

def exRenvServiceOne : RemoteEnv := fun _ => exApiServiceOne

/-- A remote service seeing a service token with two available projects. -/
def exApiServiceTwo : RemoteAPI :=
  RemoteAPI.mk (MeResponse.mk (some ("service_token")))
    (ProjectsResponse.mk (some [Project.mk ("p1"), Project.mk ("p2")]))
    (fun _ => ConfigsResponse.mk (some [ConfigItem.mk ("c1")]))
    (fun _ _ => SecretsResponse.mk [])

def exRenvServiceTwo : RemoteEnv := fun _ => exApiServiceTwo

/-- A remote service seeing a plain (non service) token; only project `p`
with config `c` carries the secret `A = x`. -/
def exApiPlain : RemoteAPI :=
  RemoteAPI.mk (MeResponse.mk none) (ProjectsResponse.mk none)
    (fun _ => ConfigsResponse.mk none)
    (fun p c =>
      if p = ("p") ∧ c = ("c") then SecretsResponse.mk [(("A"), SecretEntry.mk ("x"))]
      else SecretsResponse.mk [])

def exRenvPlain : RemoteEnv := fun _ => exApiPlain

/-- Modelled from the spec precedence law, for comparison with the source
merge: the merged value is the CLI value if present, else the stage value if
present, else the global value (empty when all are absent). -/
def specMergeField (cliV stageV globalV : Option String) : Option String :=
  if cliV.isSome then cliV else if stageV.isSome then stageV else globalV

/-- The same spec-side law for the mixed string/boolean `localFallback` field,
presence meaning not nullish. -/
def specMergeFieldJ (cliV stageV globalV : JVal) : JVal :=
  if cliV ≠ JVal.vundef then cliV else if stageV ≠ JVal.vundef then stageV else globalV

theorem jsTruthy?_of_falsy {v : Option String} (h : truthyOpt v = false) : jsTruthy? v = none := by
  cases v with
  | none => rfl
  | some s =>
    simp only [truthyOpt, Bool.not_eq_false'] at h
    simp [jsTruthy?, h]

theorem jsTruthy?_of_truthy {v : Option String} (h : truthyOpt v = true) : jsTruthy? v = v := by
  cases v with
  | none => simp [truthyOpt] at h
  | some s =>
    simp only [truthyOpt, Bool.not_eq_true'] at h
    simp [jsTruthy?, h]

theorem ancestorChain_cons (h : String) (t : List String) :
    ancestorChain (h :: t) = (h :: t) :: ancestorChain (h :: t).dropLast := by
  rw [ancestorChain]

theorem ancestorChain_concat (l : List String) (a : String) :
    ancestorChain (l ++ [a]) = (l ++ [a]) :: ancestorChain l := by
  obtain ⟨q, qs, hq⟩ : ∃ q qs, l ++ [a] = q :: qs := by
    cases hl : l ++ [a] with
    | nil => simp at hl
    | cons q qs => exact ⟨q, qs, rfl⟩
  rw [hq, ancestorChain_cons, ← hq, List.dropLast_concat]

theorem getScopedValueRev_findSome (scopes : String → Option ScopeRecord)
    (selector : ScopeRecord → Option String) (rs : List String) :
    getScopedValueRev scopes selector rs =
      (ancestorChain rs.reverse).findSome?
        (fun c => jsTruthy? ((scopes (pathOf c)).bind selector)) := by
  induction rs with
  | nil =>
    rw [getScopedValueRev]
    simp only [List.reverse_nil]
    rw [ancestorChain]
    simp only [List.findSome?_cons, List.findSome?_nil]
    cases htr : truthyOpt ((scopes (pathOf [])).bind selector) with
    | false => rw [jsTruthy?_of_falsy htr]; simp [htr]
    | true =>
      rw [jsTruthy?_of_truthy htr]
      cases hv : (scopes (pathOf [])).bind selector with
      | none => rw [hv] at htr; simp [truthyOpt] at htr
      | some s => simp [htr, hv]
  | cons r rs ih =>
    rw [getScopedValueRev]
    simp only [List.reverse_cons]
    rw [ancestorChain_concat]
    simp only [List.findSome?_cons]
    cases htr : truthyOpt ((scopes (pathOf (rs.reverse ++ [r]))).bind selector) with
    | false =>
      rw [jsTruthy?_of_falsy htr]
      simp only [htr, Bool.false_eq_true, if_false]
      exact ih
    | true =>
      rw [jsTruthy?_of_truthy htr]
      cases hv : (scopes (pathOf (rs.reverse ++ [r]))).bind selector with
      | none => rw [hv] at htr; simp [truthyOpt] at htr
      | some s => simp [htr, hv]

/-- C7: for every scope tree, start path and selector, the scoped settings walk
returns the value at the nearest path on the chain from the start path up to
the filesystem root whose selected field is truthy (non-empty), and returns
not-found (`none`) when no path on that chain, the root included, has one:
the walk equals a first-match search over the ancestor chain. -/
theorem getScopedValue_nearest_ancestor (scopes : String → Option ScopeRecord)
    (selector : ScopeRecord → Option String) (comps : List String) :
    getScopedValue scopes comps selector =
      (ancestorChain comps).findSome?
        (fun c => jsTruthy? ((scopes (pathOf c)).bind selector)) := by
  rw [getScopedValue, getScopedValueRev_findSome, List.reverse_reverse]

theorem isEmpty_false_of_ne {s : String} (h : s ≠ ("")) : s.isEmpty = false := by
  cases he : s.isEmpty
  · rfl
  · exact absurd ((String.isEmpty_iff s).mp he) h

theorem jsNullish_eq_spec (a b c : Option String) :
    jsNullish a (jsNullish b c) = specMergeField a b c := by
  cases a <;> cases b <;> simp [jsNullish, specMergeField]

theorem jnullish_eq_spec (a b c : JVal) :
    jnullish a (jnullish b c) = specMergeFieldJ a b c := by
  cases a <;> cases b <;> simp [jnullish, specMergeFieldJ]

/-- C2: for each of the four fields (token, project, config, localFallback)
independently, the value merged by `resolveDopplerSecret` equals the CLI
supplied value if present, else the per stage declared value if present, else
the global declared value if present, else empty — each field depending only on
its own three sources (field by field override, never whole object). -/
theorem merge_precedence_law (param : List String) (cfg : Option DopplerBlock) (stage : String) :
    (mergedRequest param cfg stage).accessToken =
      specMergeField (cliLookup (parseCliParams param) ("doppler-token"))
        (stageField cfg stage (fun s => s.token)) (globalField cfg (fun d => d.token)) ∧
    (mergedRequest param cfg stage).projectId =
      specMergeField (cliLookup (parseCliParams param) ("doppler-project"))
        (stageField cfg stage (fun s => s.project)) (globalField cfg (fun d => d.project)) ∧
    (mergedRequest param cfg stage).configId =
      specMergeField (cliLookup (parseCliParams param) ("doppler-config"))
        (stageField cfg stage (fun s => s.config)) (globalField cfg (fun d => d.config)) ∧
    (mergedRequest param cfg stage).localFallback =
      specMergeFieldJ (ofOptStr (cliLookup (parseCliParams param) ("doppler-local-fallback")))
        (ofOptBool (stageField cfg stage (fun s => s.localFallback)))
        (ofOptBool (globalField cfg (fun d => d.localFallback))) := by
  refine ⟨?_, ?_, ?_, ?_⟩
  · exact jsNullish_eq_spec _ _ _
  · exact jsNullish_eq_spec _ _ _
  · exact jsNullish_eq_spec _ _ _
  · exact jnullish_eq_spec _ _ _

/-- C5 counterexample: `FOO` is a key of the fetched map (bound to the empty
string), yet the variable resolver fails for it — the source tests truthiness
of the value, not key membership, so the claim "fails exactly when the address
is not a key of the map" is false. -/
theorem lookupSecret_empty_value_counterexample :
    jsGet [(("FOO"), (""))] ("FOO") = some ("") ∧
    lookupSecret [(("FOO"), (""))] ("FOO") =
      Except.error (DError.thrown (("could not resolve doppler secret \"") ++ ("FOO") ++ ("\""))) := by
  decide

/-- C5 (amended): the variable resolver returns the map entry whenever the
address maps to a non-empty value, and fails exactly when the address is not a
key or maps to the empty (falsy) string; the failure message contains the
requested address. -/
theorem lookupSecret_spec (m : SecretMap) (a : String) :
    (∀ v, jsGet m a = some v → v ≠ ("") → lookupSecret m a = Except.ok v) ∧
    (jsGet m a = none ∨ jsGet m a = some ("") →
      lookupSecret m a =
        Except.error (DError.thrown (("could not resolve doppler secret \"") ++ a ++ ("\"")))) ∧
    (∃ before after, (("could not resolve doppler secret \"") ++ a ++ ("\"")) = before ++ a ++ after) := by
  refine ⟨?_, ?_, ⟨("could not resolve doppler secret \""), ("\""), rfl⟩⟩
  · intro v hv hne
    simp [lookupSecret, hv, jsTruthy?, isEmpty_false_of_ne hne]
  · intro h
    cases h with
    | inl h => simp [lookupSecret, h, jsTruthy?]
    | inr h =>
      have he : String.isEmpty ("") = true := rfl
      simp [lookupSecret, h, jsTruthy?, he]

theorem lookupSecret_spec_witness :
    lookupSecret [(("A"), ("x"))] ("A") = Except.ok ("x") ∧
    lookupSecret [(("A"), ("x"))] ("B") =
      Except.error (DError.thrown (("could not resolve doppler secret \"") ++ ("B") ++ ("\""))) :=
  ⟨(lookupSecret_spec [(("A"), ("x"))] ("A")).1 ("x") (by decide) (by decide),
   (lookupSecret_spec [(("A"), ("x"))] ("B")).2.1 (Or.inl (by decide))⟩

/-- C6 counterexample: in the older variant, an absent settings file makes
`getLocalDopplerSettings` throw instead of returning an all-empty record. -/
theorem local_settings_absent_v1_counterexample :
    getLocalDopplerSettingsV1 exLenvNoFile =
      Except.error (DError.thrown (("no local doppler config. (no file at \"") ++ ("/home/u")
        ++ ("/.doppler/.doppler.yaml\")"))) := by
  decide

/-- C6 (amended): in the newer request object variant, an absent local settings
file makes `getLocalDopplerSettings` return a record with every field empty,
without error; the older positional variant instead throws. -/
theorem local_settings_absent_v2_ok (lenv : LocalEnv) (h : lenv.fileExists = false) :
    getLocalDopplerSettingsV2 lenv = Except.ok (LocalSettings.mk none none none) := by
  unfold getLocalDopplerSettingsV2
  simp [h]

theorem local_settings_absent_v2_ok_witness :
    getLocalDopplerSettingsV2 exLenvNoFile = Except.ok (LocalSettings.mk none none none) :=
  local_settings_absent_v2_ok exLenvNoFile (by decide)

/-- C8: the marked TODO conversion from CLI string to boolean is not
implemented: the CLI parameter `doppler-local-fallback=false` merges to the
string value `"false"`, which is truthy, so it does not disable the local
fallback — with it the engine still adopts the keychain token and succeeds,
whereas an actual boolean `false` makes the same resolution fail for lack of a
token. -/
theorem local_fallback_cli_string_not_parsed :
    (mergedRequest [("doppler-local-fallback=false")] none ("dev")).localFallback
        = JVal.vstr ("false") ∧
    jtruthy (mergedRequest [("doppler-local-fallback=false")] none ("dev")).localFallback = true ∧
    (getDopplerSecretsV2 (mergedRequest [("doppler-local-fallback=false")] none ("dev"))
        exLenvAlice exRenvPlain).1 = Except.ok [(("A"), ("x"))] ∧
    (getDopplerSecretsV2 (RequestV2.mk none none none (JVal.vbool false))
        exLenvAlice exRenvPlain).1 =
      Except.error (DError.thrown (("missing doppler access token"))) := by
  decide

/-- C9: at the failing input (stored account `alice` found, credential store
empty) the older variant crashes with a TypeError — `getPassword` resolves to
null and `.replace` is called on it — instead of completing with an empty
token; the newer variant, and the no-stored-account case, complete without
error with an empty `accessToken`, which is what the claim describes. -/
theorem keychain_missing_entry_divergence :
    getLocalDopplerSettingsV1 exLenvKeychainMiss =
      Except.error (DError.typeError (("Cannot read properties of null"))) ∧
    getLocalDopplerSettingsV2 exLenvKeychainMiss =
      Except.ok (LocalSettings.mk none (some ("p")) (some ("c"))) ∧
    getLocalDopplerSettingsV2 exLenvNoAccount =
      Except.ok (LocalSettings.mk none (some ("p")) (some ("c"))) := by
  decide

theorem secretsTailV2_trace_head (lf : JVal) (ls : LocalSettings) (api : RemoteAPI)
    (pI cI : Option String) (rest : List Eff) :
    (secretsTailV2 lf ls api pI cI (Eff.readLocal :: rest)).2.head? = some Eff.readLocal := by
  unfold secretsTailV2
  split
  · rfl
  · split
    · rfl
    · simp

/-- C10: the request object variant of `getDopplerSecrets` invokes
`getLocalDopplerSettings` first on every resolution attempt, before the access
token is even checked (the effect trace of every attempt starts with the local
settings read), and when the settings file exists but lacks a `scoped` mapping
the attempt fails with the resulting TypeError regardless of the request — even
one carrying explicit token, project and config. -/
theorem v2_always_reads_local_settings (req : RequestV2) (lenv : LocalEnv) (renv : RemoteEnv) :
    (getDopplerSecretsV2 req lenv renv).2.head? = some Eff.readLocal ∧
    (lenv.fileExists = true → lenv.scopedMap = none →
      (getDopplerSecretsV2 req lenv renv).1 =
        Except.error (DError.typeError (("Cannot read properties of undefined")))) := by
  constructor
  · unfold getDopplerSecretsV2
    repeat' first
      | rfl
      | exact secretsTailV2_trace_head _ _ _ _ _ _
      | split
  · intro h1 h2
    unfold getDopplerSecretsV2 getLocalDopplerSettingsV2
    simp [h1, h2]

theorem v2_always_reads_local_settings_witness :
    (getDopplerSecretsV2 (RequestV2.mk (some ("t")) (some ("p")) (some ("c")) (JVal.vbool false))
        exLenvScopedMissing exRenvPlain).1 =
      Except.error (DError.typeError (("Cannot read properties of undefined"))) :=
  (v2_always_reads_local_settings _ _ _).2 rfl rfl

theorem countListSecrets_append (a b : List Eff) :
    countListSecrets (a ++ b) = countListSecrets a + countListSecrets b := by
  simp [countListSecrets, List.countP_append]

theorem secretsTailV2_count (lf : JVal) (ls : LocalSettings) (api : RemoteAPI)
    (pI cI : Option String) (pre : List Eff) (h : countListSecrets pre = 0) :
    countListSecrets (secretsTailV2 lf ls api pI cI pre).2 ≤ 1 ∧
    (∀ m, (secretsTailV2 lf ls api pI cI pre).1 = Except.ok m →
      countListSecrets (secretsTailV2 lf ls api pI cI pre).2 = 1) := by
  unfold secretsTailV2
  split
  · refine ⟨by simp [h], fun m hm => ?_⟩
    simp at hm
  · split
    · refine ⟨by simp [h], fun m hm => ?_⟩
      simp at hm
    · constructor
      · rw [countListSecrets_append, h]
        simp [countListSecrets]
      · intro m _
        rw [countListSecrets_append, h]
        simp [countListSecrets]

theorem getDopplerSecretsV2_count (req : RequestV2) (lenv : LocalEnv) (renv : RemoteEnv) :
    countListSecrets (getDopplerSecretsV2 req lenv renv).2 ≤ 1 ∧
    (∀ m, (getDopplerSecretsV2 req lenv renv).1 = Except.ok m →
      countListSecrets (getDopplerSecretsV2 req lenv renv).2 = 1) := by
  unfold getDopplerSecretsV2
  repeat' split
  all_goals
    first
      | exact secretsTailV2_count _ _ _ _ _ _ (by simp [countListSecrets])
      | (constructor
         · simp [countListSecrets]
         · intro m hm
           simp at hm)

theorem resolveStep_memoized (param : List String) (cfg : Option DopplerBlock) (stage : String)
    (lenv : LocalEnv) (renv : RemoteEnv) (r : Except DError SecretMap × List Eff) (a : String) :
    resolveDopplerSecretStep param cfg stage lenv renv (PluginState.mk (some r)) a =
      (PluginState.mk (some r), [], awaitAndLookup r.1 a) := rfl

theorem runLookups_memoized (param : List String) (cfg : Option DopplerBlock) (stage : String)
    (lenv : LocalEnv) (renv : RemoteEnv) (r : Except DError SecretMap × List Eff)
    (as : List String) :
    runLookups param cfg stage lenv renv as (PluginState.mk (some r)) =
      (PluginState.mk (some r), [], as.map (fun a => awaitAndLookup r.1 a)) := by
  induction as with
  | nil => rfl
  | cons a as ih =>
    simp [runLookups, resolveStep_memoized, ih]

/-- C1: in a deployment run with at least one lookup, processed through the
memoized promise field, the fetch routine runs exactly once — the first call to
`resolveDopplerSecret` creates the promise, the whole run performs exactly the
effects of that single fetch (hence at most one `secrets.list` call, and
exactly one whenever the fetch succeeds), and every lookup is answered from
the same promise, so every lookup of the run observes the same `SecretMap`
snapshot.  Concurrent lookups reduce to this sequential model because the
promise test and assignment are synchronous on a single threaded event loop. -/
theorem single_flight_one_fetch (param : List String) (cfg : Option DopplerBlock) (stage : String)
    (lenv : LocalEnv) (renv : RemoteEnv) (addrs : List String) (hne : addrs ≠ []) :
    (runLookups param cfg stage lenv renv addrs (PluginState.mk none)).1 =
      PluginState.mk (some (getDopplerSecretsV2 (mergedRequest param cfg stage) lenv renv)) ∧
    (runLookups param cfg stage lenv renv addrs (PluginState.mk none)).2.1 =
      (getDopplerSecretsV2 (mergedRequest param cfg stage) lenv renv).2 ∧
    countListSecrets (runLookups param cfg stage lenv renv addrs (PluginState.mk none)).2.1 ≤ 1 ∧
    (runLookups param cfg stage lenv renv addrs (PluginState.mk none)).2.2 =
      addrs.map (fun a =>
        awaitAndLookup (getDopplerSecretsV2 (mergedRequest param cfg stage) lenv renv).1 a) ∧
    (∀ m, (getDopplerSecretsV2 (mergedRequest param cfg stage) lenv renv).1 = Except.ok m →
      countListSecrets (runLookups param cfg stage lenv renv addrs (PluginState.mk none)).2.1 = 1 ∧
      (runLookups param cfg stage lenv renv addrs (PluginState.mk none)).2.2 =
        addrs.map (fun a => lookupSecret m a)) := by
  cases addrs with
  | nil => exact absurd rfl hne
  | cons a as =>
    have hrun : runLookups param cfg stage lenv renv (a :: as) (PluginState.mk none) =
        (PluginState.mk (some (getDopplerSecretsV2 (mergedRequest param cfg stage) lenv renv)),
         (getDopplerSecretsV2 (mergedRequest param cfg stage) lenv renv).2 ++ [],
         awaitAndLookup (getDopplerSecretsV2 (mergedRequest param cfg stage) lenv renv).1 a ::
           as.map (fun x =>
             awaitAndLookup (getDopplerSecretsV2 (mergedRequest param cfg stage) lenv renv).1 x)) := by
      rw [runLookups, resolveDopplerSecretStep]
      simp [runLookups_memoized]
    rw [hrun]
    refine ⟨rfl, by simp, ?_, by simp, ?_⟩
    · simpa using (getDopplerSecretsV2_count (mergedRequest param cfg stage) lenv renv).1
    · intro m hm
      constructor
      · simpa using (getDopplerSecretsV2_count (mergedRequest param cfg stage) lenv renv).2 m hm
      · simp [hm, awaitAndLookup]

theorem single_flight_one_fetch_witness :
    (runLookups [] (some exDopplerBlock) ("dev") exLenvNoFile exRenvServiceOne
        [("A"), ("A"), ("B")] (PluginState.mk none)).2.1 =
      (getDopplerSecretsV2 (mergedRequest [] (some exDopplerBlock) ("dev"))
        exLenvNoFile exRenvServiceOne).2 ∧
    countListSecrets
      (runLookups [] (some exDopplerBlock) ("dev") exLenvNoFile exRenvServiceOne
        [("A"), ("A"), ("B")] (PluginState.mk none)).2.1 ≤ 1 :=
  ⟨(single_flight_one_fetch [] (some exDopplerBlock) ("dev") exLenvNoFile exRenvServiceOne
      [("A"), ("A"), ("B")] (by simp)).2.1,
   (single_flight_one_fetch [] (some exDopplerBlock) ("dev") exLenvNoFile exRenvServiceOne
      [("A"), ("A"), ("B")] (by simp)).2.2.1⟩

theorem ne_empty_of_isEmpty_false {s : String} (h : s.isEmpty = false) : s ≠ ("") := by
  intro he
  subst he
  exact absurd h (by decide)

/-- C3: when `auth.me()` classifies the resolved token as a service token, the
engine adopts a project and config only if exactly one project is available and
exactly one config is available within it: zero available projects (or a falsy
first slug), several projects, zero configs or several configs each fail with
an error naming the ambiguous element, and any successful resolution implies
the adopted pair was the unique available one — the engine never guesses. -/
theorem service_token_unique_binding (req : RequestV2) (lenv : LocalEnv) (renv : RemoteEnv)
    (ls : LocalSettings) (tok : String)
    (hls : getLocalDopplerSettingsV2 lenv = Except.ok ls)
    (htok : jsTruthy? (jsNullish req.accessToken
      (if jtruthy req.localFallback then ls.accessToken else none)) = some tok)
    (hme : (renv tok).me.type_ = some ("service_token"))  :
    (getAvailableProjectIds (renv tok) = [] →
      (getDopplerSecretsV2 req lenv renv).1 =
        Except.error (DError.thrown
          (("cannot find doppler project associated with service token")))) ∧
    (∀ p q ps, getAvailableProjectIds (renv tok) = p :: q :: ps → p ≠ ("") →
      (getDopplerSecretsV2 req lenv renv).1 =
        Except.error (DError.thrown
          (("multiple doppler projects associated with service token")))) ∧
    (∀ p, getAvailableProjectIds (renv tok) = [p] → p ≠ ("") →
      (getAvailableConfigIds (renv tok) p = [] →
        (getDopplerSecretsV2 req lenv renv).1 =
          Except.error (DError.thrown
            (("cannot find doppler config associated with service token")))) ∧
      (∀ c d cs, getAvailableConfigIds (renv tok) p = c :: d :: cs → c ≠ ("") →
        (getDopplerSecretsV2 req lenv renv).1 =
          Except.error (DError.thrown
            (("multiple doppler configs associated with service token"))))) ∧
    (∀ m, (getDopplerSecretsV2 req lenv renv).1 = Except.ok m →
      ∃ p c, getAvailableProjectIds (renv tok) = [p] ∧ p ≠ ("") ∧
        getAvailableConfigIds (renv tok) p = [c] ∧ c ≠ ("") ∧
        m = flattenSecrets ((renv tok).secretsList p c).secrets) := by
  refine ⟨?_, ?_, ?_, ?_⟩
  · intro hp
    simp [getDopplerSecretsV2, hls, htok, hme, hp]
  · intro p q ps hp hpne
    simp [getDopplerSecretsV2, hls, htok, hme, hp, isEmpty_false_of_ne hpne]
  · intro p hp hpne
    constructor
    · intro hc
      simp [getDopplerSecretsV2, hls, htok, hme, hp, hc, isEmpty_false_of_ne hpne]
    · intro c d cs hc hcne
      simp [getDopplerSecretsV2, hls, htok, hme, hp, hc, isEmpty_false_of_ne hpne,
        isEmpty_false_of_ne hcne]
  · intro m hm
    simp only [getDopplerSecretsV2, hls, htok, hme, reduceIte] at hm
    cases hpids : getAvailableProjectIds (renv tok) with
    | nil => rw [hpids] at hm; simp at hm
    | cons p rest =>
      rw [hpids] at hm
      cases hpe : p.isEmpty with
      | true => simp [hpe] at hm
      | false =>
        cases rest with
        | cons q qs => simp [hpe] at hm
        | nil =>
          simp only [hpe, Bool.false_eq_true, if_false, List.isEmpty_nil,
            Bool.not_true] at hm
          cases hcids : getAvailableConfigIds (renv tok) p with
          | nil => rw [hcids] at hm; simp at hm
          | cons c crest =>
            rw [hcids] at hm
            cases hce : c.isEmpty with
            | true => simp [hce] at hm
            | false =>
              cases crest with
              | cons d ds => simp [hce] at hm
              | nil =>
                simp only [hce, Bool.false_eq_true, if_false, List.isEmpty_nil,
                  Bool.not_true, secretsTailV2, jsNullish, jsTruthy?, hpe] at hm
                refine ⟨p, c, rfl, ne_empty_of_isEmpty_false hpe, hcids,
                  ne_empty_of_isEmpty_false hce, ?_⟩
                simpa using hm.symm

theorem service_token_unique_binding_witness :
    (getDopplerSecretsV2 (RequestV2.mk (some ("tok")) none none JVal.vundef)
        exLenvNoFile exRenvServiceTwo).1 =
      Except.error (DError.thrown (("multiple doppler projects associated with service token"))) :=
  (service_token_unique_binding (RequestV2.mk (some ("tok")) none none JVal.vundef)
      exLenvNoFile exRenvServiceTwo (LocalSettings.mk none none none) ("tok")
      (by decide) (by decide) (by decide)).2.1 ("p1") ("p2") [] (by decide) (by decide)

/-- C4 counterexample: in the request object variant, a request whose explicit
projectId differs from the project bound to the service token does not fail
with a mismatch error — the explicit value is silently overwritten and
resolution succeeds with the token bound pair. -/
theorem service_token_mismatch_v2_counterexample :
    (getDopplerSecretsV2 (RequestV2.mk (some ("tok")) (some ("other")) none JVal.vundef)
        exLenvNoFile exRenvServiceOne).1 = Except.ok [(("A"), ("x"))] ∧
    getAvailableProjectIds (exRenvServiceOne ("tok")) = [("p1")] ∧
    (("other") : String) ≠ ("p1") := by
  decide

/-- C4 (amended): the explicit mismatch checks exist only in the older
positional variant: there, with a service token bound to the unique pair
(pid, cid), a truthy explicit projectId different from pid fails with the
project mismatch error, and a truthy explicit configId different from cid
(when projectId is absent or matches) fails with the config mismatch error.
The newer request object variant silently replaces the explicit values. -/
theorem service_token_mismatch_v1 (accessToken projectId configId : Option String)
    (lenv : LocalEnv) (renv : RemoteEnv) (tok pid cid : String)
    (htok : jsTruthy? accessToken = some tok)
    (hme : (renv tok).me.type_ = some ("service_token"))
    (hp : getAvailableProjectIds (renv tok) = [pid]) (hpne : pid ≠ (""))
    (hc : getAvailableConfigIds (renv tok) pid = [cid]) (hcne : cid ≠ ("")) :
    (∀ q, jsTruthy? projectId = some q → q ≠ pid →
      getDopplerSecretsV1 accessToken projectId configId lenv renv =
        Except.error (DError.thrown
          (("service token corresponds to a different doppler project than specified")))) ∧
    (∀ d, (jsTruthy? projectId = none ∨ jsTruthy? projectId = some pid) →
      jsTruthy? configId = some d → d ≠ cid →
      getDopplerSecretsV1 accessToken projectId configId lenv renv =
        Except.error (DError.thrown
          (("service token corresponds to a different doppler config than specified")))) := by
  constructor
  · intro q hq hne
    simp [getDopplerSecretsV1, htok, getDopplerSecretsV1Core, hme, hp, hc,
      isEmpty_false_of_ne hpne, isEmpty_false_of_ne hcne, hq, hne]
  · intro d hpq hd hne
    cases hpq with
    | inl h =>
      simp [getDopplerSecretsV1, htok, getDopplerSecretsV1Core, hme, hp, hc,
        isEmpty_false_of_ne hpne, isEmpty_false_of_ne hcne, h, v1ConfigCheck, hd, hne]
    | inr h =>
      simp [getDopplerSecretsV1, htok, getDopplerSecretsV1Core, hme, hp, hc,
        isEmpty_false_of_ne hpne, isEmpty_false_of_ne hcne, h, v1ConfigCheck, hd, hne]

theorem service_token_mismatch_v1_witness :
    getDopplerSecretsV1 (some ("tok")) (some ("other")) none exLenvNoFile exRenvServiceOne =
      Except.error (DError.thrown
        (("service token corresponds to a different doppler project than specified"))) :=
  (service_token_mismatch_v1 (some ("tok")) (some ("other")) none exLenvNoFile exRenvServiceOne
      ("tok") ("p1") ("c1") (by decide) (by decide) (by decide) (by decide) (by decide)
      (by decide)).1 ("other") (by decide) (by decide)
